import Mathlib

/-!
Verification of the Conway's-Game-of-Life terminal program (`src/main.rs`)
against its natural-language specification.

The Rust program is shallowly embedded: the flat cell buffer `Vec<bool>`
becomes `List Bool`, `usize`/`u16` arithmetic becomes `Nat` arithmetic (with
an explicit `% 2 ^ 16` where the source multiplies two `u16` values), and
operations that can panic in Rust (indexing, division by zero, sampling an
empty random range) additionally get an `Option`-valued "checked" variant
that returns `none` exactly when the source panics.
-/

/-- Embedding of `struct Grid { data: Vec<bool>, cols: usize }`. -/
structure Grid where
  data : List Bool
  cols : Nat
deriving DecidableEq, Repr

/-- Embedding of `Grid::rows`: `self.data.len() / self.cols`.  In Rust this
division panics when `cols == 0`; this total version uses Lean's `0`-valued
division and is meaningful whenever `cols > 0` (see `Grid.rowsChecked`). -/
def Grid.rows (g : Grid) : Nat :=
  g.data.length / g.cols

/-- Checked embedding of `Grid::rows`: `none` models the Rust panic
(division by zero) that occurs exactly when `cols == 0`. -/
def Grid.rowsChecked (g : Grid) : Option Nat :=
  if g.cols = 0 then none else some (g.data.length / g.cols)

/-- Embedding of `impl Index<(usize, usize)> for Grid`:
`self.data[row * self.cols + col]`.  All reads proved about below are
in bounds, where `getD` agrees with the panicking Rust indexing. -/
def Grid.get (g : Grid) (row col : Nat) : Bool :=
  g.data.getD (row * g.cols + col) false

/-- Embedding of `impl IndexMut<(usize, usize)> for Grid` used as an
assignment target: writes `self.data[row * self.cols + col]`.  All writes
proved about below are in bounds, where `List.set` agrees with the
panicking Rust indexing. -/
def Grid.set (g : Grid) (row col : Nat) (v : Bool) : Grid :=
  { g with data := g.data.set (row * g.cols + col) v }

/-- Embedding of `Grid::new(Size { width, height })`:
`data = vec![false; (height * width).into()], cols = width.into()`.
`height` and `width` are `u16` in the source (ratatui `Size`), so the
product `height * width` is computed in `u16` and wraps modulo `2 ^ 16`
(release profile; the debug profile panics instead). -/
def Grid.new (height width : Nat) : Grid :=
  { data := List.replicate ((height * width) % 65536) false, cols := width }

/-- Embedding of the cell-transition `match` in `State::update`:
`(true, 2..=3) => true, (false, 3) => true, _ => false`. -/
def lifeRule (alive : Bool) (neighbors : Nat) : Bool :=
  match alive, neighbors with
  | true, 2 => true
  | true, 3 => true
  | false, 3 => true
  | _, _ => false

/-- The eight `(dr, dc)` pairs produced by the source's nested
`for dr in [-1, 0, 1] { for dc in [-1, 0, 1] { ... } }` loops with the
`(0, 0)` pair skipped, in loop order. -/
def neighborDeltas : List (Int × Int) :=
  [(-1, -1), (-1, 0), (-1, 1), (0, -1), (0, 1), (1, -1), (1, 0), (1, 1)]

/-- Embedding of the neighbor count in `State::update`: for each delta,
`nr = (r as isize + dr).rem_euclid(rows as isize) as usize` and similarly
`nc`, counting the live cells of the pre-step grid.  `Int.emod` agrees
with Rust's `rem_euclid` (result in `[0, m)` for positive `m`). -/
def neighborCount (g : Grid) (r c : Nat) : Nat :=
  neighborDeltas.countP fun d =>
    g.get (((r : Int) + d.1).emod (g.rows : Int)).toNat
          (((c : Int) + d.2).emod (g.cols : Int)).toNat

/-- Embedding of `State::update`: clone the grid into `next`, then for every
`(r, c)` in row-major loop order read `*alive = next[(r, c)]` (the value not
yet rewritten this step), count the live neighbors of the pre-step grid
`self.grid`, and write the rule's result back into `next`. -/
def State.update (g : Grid) : Grid :=
  { data :=
      (List.range g.rows).foldl
        (fun next r =>
          (List.range g.cols).foldl
            (fun next c =>
              next.set (r * g.cols + c)
                (lifeRule (next.getD (r * g.cols + c) false) (neighborCount g r c)))
            next)
        g.data,
    cols := g.cols }

/-- Checked embedding of `State::update`: the very first thing the source
does is call `self.grid.rows()`, which panics when `cols == 0`. -/
def State.updateChecked (g : Grid) : Option Grid :=
  g.rowsChecked.map fun _ => State.update g

/-- Embedding of `Grid::resize(rows, cols)`: allocate
`data = vec![false; rows * cols]`, copy
`data[r * cols + c] = self.data[r * self.cols() + c]` for
`r < self.rows().min(rows)` and `c < self.cols().min(cols)` in loop order,
then replace the buffer and the column count. -/
def Grid.resize (g : Grid) (rows cols : Nat) : Grid :=
  { data :=
      (List.range (min g.rows rows)).foldl
        (fun data r =>
          (List.range (min g.cols cols)).foldl
            (fun data c => data.set (r * cols + c) (g.data.getD (r * g.cols + c) false))
            data)
        (List.replicate (rows * cols) false),
    cols := cols }

/-- Checked embedding of `Grid::resize`: it evaluates `self.rows()` for the
copy loop's bound, which panics when the old `cols == 0`. -/
def Grid.resizeChecked (g : Grid) (rows cols : Nat) : Option Grid :=
  g.rowsChecked.map fun _ => g.resize rows cols

/-- Embedding of `enum Pattern`. -/
inductive Pattern
  | Glider
  | Blinker
  | Toad
  | Beacon
  | Pulsar
  | LightweightSpaceship
deriving DecidableEq, Repr

/-- Embedding of `Pattern::cells`: the literal `(row-offset, col-offset)`
lists from the source, in source order. -/
def Pattern.cells : Pattern → List (Nat × Nat)
  | Pattern.Glider => [(0, 1), (1, 2), (2, 0), (2, 1), (2, 2)]
  | Pattern.Blinker => [(1, 0), (1, 1), (1, 2)]
  | Pattern.Toad => [(1, 1), (1, 2), (1, 3), (2, 0), (2, 1), (2, 2)]
  | Pattern.Beacon => [(0, 0), (0, 1), (1, 0), (2, 3), (3, 2), (3, 3)]
  | Pattern.Pulsar =>
      [(0, 2), (0, 3), (0, 4), (0, 8), (0, 9), (0, 10),
       (2, 0), (2, 5), (2, 7), (2, 12),
       (3, 0), (3, 5), (3, 7), (3, 12),
       (4, 0), (4, 5), (4, 7), (4, 12),
       (5, 2), (5, 3), (5, 4), (5, 8), (5, 9), (5, 10),
       (7, 2), (7, 3), (7, 4), (7, 8), (7, 9), (7, 10),
       (8, 0), (8, 5), (8, 7), (8, 12),
       (9, 0), (9, 5), (9, 7), (9, 12),
       (10, 0), (10, 5), (10, 7), (10, 12),
       (12, 2), (12, 3), (12, 4), (12, 8), (12, 9), (12, 10)]
  | Pattern.LightweightSpaceship =>
      [(0, 1), (0, 4), (1, 0), (2, 0), (2, 4), (3, 0), (3, 1), (3, 2), (3, 3)]

/-- Embedding of `State::place_pattern`: for each offset `(dr, dc)` of the
pattern, set `grid[(start_row + dr, start_col + dc)] = true` when
`start_row + dr < rows` and `start_col + dc < cols`, else skip it. -/
def State.place_pattern (g : Grid) (pattern : Pattern) (start_row start_col : Nat) : Grid :=
  let data :=
    List.foldl
      (fun data o =>
        if start_row + o.1 < g.rows ∧ start_col + o.2 < g.cols then
          data.set ((start_row + o.1) * g.cols + (start_col + o.2)) true
        else data)
      g.data pattern.cells
  { g with data := data }

/-- Checked embedding of `State::place_pattern`: each loop iteration calls
`self.grid.rows()`, which panics when `cols == 0`; with an empty cell list
the loop body never runs. -/
def State.place_patternChecked (g : Grid) (pattern : Pattern) (start_row start_col : Nat) :
    Option Grid :=
  if pattern.cells.isEmpty then some (State.place_pattern g pattern start_row start_col)
  else g.rowsChecked.map fun _ => State.place_pattern g pattern start_row start_col

/-- Embedding of the `match rng.gen_range(0..6)` arms selecting the spawned
pattern in `State::spawn_random_pattern` and `State::spawn_pattern_at_cursor`:
`0..=4` name a pattern, the wildcard arm gives the lightweight spaceship. -/
def patternFromDraw : Nat → Pattern
  | 0 => Pattern.Glider
  | 1 => Pattern.Blinker
  | 2 => Pattern.Toad
  | 3 => Pattern.Beacon
  | 4 => Pattern.Pulsar
  | _ => Pattern.LightweightSpaceship

/-- Model of `rand::Rng::gen_range(0..n)` applied to a raw uniform draw:
sampling an empty range (`n = 0`) panics in the `rand` crate, modelled as
`none`; otherwise the result is the draw reduced into `[0, n)`. -/
def genRange (draw n : Nat) : Option Nat :=
  if n = 0 then none else some (draw % n)

/-- Embedding of `State::spawn_random_pattern`, with the four random draws
made explicit inputs: a 10-way gate draw (spawn only continues on `0`), a
6-way pattern draw, and the anchor draws over
`0..rows.saturating_sub(15)` and `0..cols.saturating_sub(15)`.  `none`
models a panic: the empty-range panic of `gen_range` when
`rows <= 15` or `cols <= 15`, or the `rows()` division by zero when
`cols == 0`. -/
def State.spawn_random_pattern (g : Grid) (gateDraw patDraw rowDraw colDraw : Nat) :
    Option Grid :=
  match genRange gateDraw 10 with
  | none => none
  | some gate =>
    if gate ≠ 0 then some g
    else
      match genRange patDraw 6 with
      | none => none
      | some pat =>
        match g.rowsChecked with
        | none => none
        | some rows =>
          match genRange rowDraw (rows - 15) with
          | none => none
          | some row =>
            match genRange colDraw (g.cols - 15) with
            | none => none
            | some col => some (State.place_pattern g (patternFromDraw pat) row col)

/-- Embedding of `struct Cursor { row: usize, col: usize }`. -/
structure Cursor where
  row : Nat
  col : Nat
deriving DecidableEq, Repr

/-- The four arrow-key input events of `State::handle_events`. -/
inductive ArrowKey
  | left
  | right
  | up
  | down
deriving DecidableEq, Repr

/-- Embedding of the arrow-key arms of the `match code` in
`State::handle_events`, with `max_rows = self.grid.rows()` and
`max_cols = self.grid.cols()`:
left is `(col + max_cols - 1) % max_cols`, right is `(col + 1) % max_cols`,
up is `(row + max_rows - 1) % max_rows`, down is `(row + 1) % max_rows`. -/
def State.moveCursor (cur : Cursor) (max_rows max_cols : Nat) : ArrowKey → Cursor
  | ArrowKey.left => { cur with col := (cur.col + max_cols - 1) % max_cols }
  | ArrowKey.right => { cur with col := (cur.col + 1) % max_cols }
  | ArrowKey.up => { cur with row := (cur.row + max_rows - 1) % max_rows }
  | ArrowKey.down => { cur with row := (cur.row + 1) % max_rows }

/-- Embedding of `enum TickRate`. -/
inductive TickRate
  | Slow
  | Normal
  | Fast
deriving DecidableEq, Repr

/-- Embedding of `TickRate::increase`. -/
def TickRate.increase : TickRate → TickRate
  | TickRate.Slow => TickRate.Normal
  | TickRate.Normal => TickRate.Fast
  | TickRate.Fast => TickRate.Slow

/-- Embedding of `TickRate::decrease`. -/
def TickRate.decrease : TickRate → TickRate
  | TickRate.Slow => TickRate.Fast
  | TickRate.Normal => TickRate.Slow
  | TickRate.Fast => TickRate.Normal

/-- Embedding of `impl From<TickRate> for Duration` in nanoseconds.
The source calls `Duration::from_secs_f64` on `1.`, `1. / 5.` and
`1. / 10.`; `from_secs_f64` rounds to the nearest nanosecond, and the
nearest-nanosecond values of those three `f64` constants are exactly
1.0 s, 0.2 s and 0.1 s. -/
def TickRate.durationNanos : TickRate → Nat
  | TickRate.Slow => 1000000000
  | TickRate.Normal => 200000000
  | TickRate.Fast => 100000000

/-- Embedding of the inner `while accumulator >= tick_rate` loop of
`State::run`: step the simulation and subtract `tick_rate` until the
accumulator drops below it.  Durations are in nanoseconds.  The `0 < tick`
guard makes the definition total; in the program `tick` is always one of
the three positive `TickRate` durations (with `tick = 0` the source loop
would never terminate). -/
def runTicks (tick acc : Nat) (g : Grid) : Nat × Grid :=
  if _h : 0 < tick ∧ tick ≤ acc then runTicks tick (acc - tick) (State.update g)
  else (acc, g)
termination_by acc
decreasing_by omega

/-- Embedding of one scheduler frame of `State::run` (steps 2-3 of the
per-frame protocol, without the random-spawn option): when paused, the
`if !self.paused` guard skips the whole block, so neither the accumulator
nor the grid changes; otherwise `delta` is added to the accumulator and
the while loop runs. -/
def State.runFrame (paused : Bool) (tick acc delta : Nat) (g : Grid) : Nat × Grid :=
  if paused then (acc, g) else runTicks tick (acc + delta) g

/-! Helper lemmas about `List.set`, `List.getD` and folds of writes. -/

theorem getD_set_self (d : List Bool) (i : Nat) (b : Bool) (h : i < d.length) :
    (d.set i b).getD i false = b := by
  induction d generalizing i with
  | nil => simp at h
  | cons a t ih =>
    cases i with
    | zero => rfl
    | succ n =>
      have h' : n < t.length := by simpa using h
      show (a :: t.set n b).getD (n + 1) false = b
      rw [List.getD_cons_succ]
      exact ih n h'

theorem getD_set_ne (d : List Bool) (i j : Nat) (b : Bool) (h : i ≠ j) :
    (d.set i b).getD j false = d.getD j false := by
  induction d generalizing i j with
  | nil => rfl
  | cons a t ih =>
    cases i with
    | zero =>
      cases j with
      | zero => exact absurd rfl h
      | succ m =>
        show (b :: t).getD (m + 1) false = (a :: t).getD (m + 1) false
        rw [List.getD_cons_succ, List.getD_cons_succ]
    | succ n =>
      cases j with
      | zero => rfl
      | succ m =>
        show (a :: t.set n b).getD (m + 1) false = (a :: t).getD (m + 1) false
        rw [List.getD_cons_succ, List.getD_cons_succ]
        exact ih n m (by omega)

theorem getD_replicate_false (n i : Nat) : (List.replicate n false).getD i false = false := by
  induction n generalizing i with
  | zero => rfl
  | succ m ih =>
    cases i with
    | zero => rfl
    | succ k =>
      show (List.replicate m false).getD k false = false
      exact ih k

theorem setFold_length {α : Type} (flat : α → Nat) (w : α → Bool → Bool)
    (L : List α) (d : List Bool) :
    (List.foldl (fun acc q => acc.set (flat q) (w q (acc.getD (flat q) false))) d L).length
      = d.length := by
  induction L generalizing d with
  | nil => rfl
  | cons q L ih => rw [List.foldl_cons, ih, List.length_set]

theorem setFold_untouched {α : Type} (flat : α → Nat) (w : α → Bool → Bool)
    (L : List α) (d : List Bool) (i : Nat) (hi : i ∉ L.map flat) :
    (List.foldl (fun acc q => acc.set (flat q) (w q (acc.getD (flat q) false))) d L).getD i false
      = d.getD i false := by
  induction L generalizing d with
  | nil => rfl
  | cons q L ih =>
    rw [List.map_cons] at hi
    have h1 : i ≠ flat q := fun h => hi (h ▸ List.mem_cons_self _ _)
    have h2 : i ∉ L.map flat := fun h => hi (List.mem_cons_of_mem _ h)
    rw [List.foldl_cons, ih _ h2, getD_set_ne _ _ _ _ (Ne.symm h1)]

theorem setFold_write {α : Type} (flat : α → Nat) (w : α → Bool → Bool)
    (L : List α) (d : List Bool) (hnd : (L.map flat).Nodup)
    (hb : ∀ p ∈ L, flat p < d.length) (p : α) (hp : p ∈ L) :
    (List.foldl (fun acc q => acc.set (flat q) (w q (acc.getD (flat q) false))) d L).getD
        (flat p) false
      = w p (d.getD (flat p) false) := by
  induction L generalizing d with
  | nil => exact absurd hp (List.not_mem_nil p)
  | cons q L ih =>
    rw [List.map_cons, List.nodup_cons] at hnd
    rw [List.foldl_cons]
    rcases List.mem_cons.mp hp with hpq | hpL
    · subst hpq
      rw [setFold_untouched flat w L _ (flat p) hnd.1]
      exact getD_set_self d (flat p) _ (hb p hp)
    · have hflat : flat q ≠ flat p := by
        intro h
        exact hnd.1 (h ▸ List.mem_map_of_mem flat hpL)
      rw [ih _ hnd.2
            (fun r hr => by rw [List.length_set]; exact hb r (List.mem_cons_of_mem _ hr))
            hpL,
          getD_set_ne _ _ _ _ hflat]

theorem foldl_prod {α β : Type} (f : List Bool → α × β → List Bool)
    (l1 : List α) (l2 : List β) (d : List Bool) :
    List.foldl (fun acc a => List.foldl (fun acc2 b => f acc2 (a, b)) acc l2) d l1
      = List.foldl f d (l1 ×ˢ l2) := by
  induction l1 generalizing d with
  | nil => rfl
  | cons a l1 ih =>
    rw [List.foldl_cons, ih, List.product_cons, List.foldl_append, List.foldl_map]

theorem foldl_filter_if {α : Type} (P : α → Prop) [DecidablePred P]
    (f : List Bool → α → List Bool) (L : List α) (d : List Bool) :
    List.foldl (fun acc p => if P p then f acc p else acc) d L
      = List.foldl f d (L.filter fun p => decide (P p)) := by
  induction L generalizing d with
  | nil => rfl
  | cons a L ih =>
    by_cases h : P a
    · rw [List.foldl_cons, if_pos h, List.filter_cons, if_pos (by simpa using h),
        List.foldl_cons, ih]
    · rw [List.foldl_cons, if_neg h, List.filter_cons, if_neg (by simpa using h), ih]

/-! Flat-index arithmetic for the row-major representation. -/

theorem flatIndex_lt (R C r c : Nat) (hr : r < R) (hc : c < C) : r * C + c < R * C :=
  calc r * C + c < r * C + C := by omega
  _ = (r + 1) * C := by ring
  _ ≤ R * C := Nat.mul_le_mul_right C hr

theorem flatIndex_lt_length (len C r c : Nat) (hc : c < C) (hr : r < len / C) :
    r * C + c < len :=
  lt_of_lt_of_le (flatIndex_lt (len / C) C r c hr hc) (Nat.div_mul_le_self len C)

theorem flatIndex_inj (C r1 c1 r2 c2 : Nat) (h1 : c1 < C) (h2 : c2 < C)
    (h : r1 * C + c1 = r2 * C + c2) : r1 = r2 ∧ c1 = c2 := by
  have hC : 0 < C := by omega
  have e1 : (r1 * C + c1) % C = c1 := by
    rw [Nat.mul_comm r1 C, Nat.mul_add_mod, Nat.mod_eq_of_lt h1]
  have e2 : (r2 * C + c2) % C = c2 := by
    rw [Nat.mul_comm r2 C, Nat.mul_add_mod, Nat.mod_eq_of_lt h2]
  have hc12 : c1 = c2 := by rw [← e1, ← e2, h]
  have hr12 : r1 * C = r2 * C := by omega
  exact ⟨Nat.eq_of_mul_eq_mul_right hC hr12, hc12⟩

theorem rowMajor_nodup_flat (R C M : Nat) (hCM : C ≤ M) :
    (((List.range R) ×ˢ (List.range C)).map fun p : Nat × Nat => p.1 * M + p.2).Nodup := by
  apply List.Nodup.map_on _ (List.Nodup.product (List.nodup_range R) (List.nodup_range C))
  intro x hx y hy hxy
  obtain ⟨x1, x2⟩ := x
  obtain ⟨y1, y2⟩ := y
  have hx2 : x2 < M :=
    lt_of_lt_of_le (List.mem_range.mp (List.pair_mem_product.mp hx).2) hCM
  have hy2 : y2 < M :=
    lt_of_lt_of_le (List.mem_range.mp (List.pair_mem_product.mp hy).2) hCM
  have h := flatIndex_inj M x1 x2 y1 y2 hx2 hy2 hxy
  simpa [Prod.ext_iff] using h

/-! Bridge lemmas: each looping operation's buffer equals a single fold of
writes over an explicit list of positions. -/

theorem update_data (g : Grid) :
    (State.update g).data
      = List.foldl
          (fun next q =>
            next.set (q.1 * g.cols + q.2)
              (lifeRule (next.getD (q.1 * g.cols + q.2) false) (neighborCount g q.1 q.2)))
          g.data ((List.range g.rows) ×ˢ (List.range g.cols)) :=
  foldl_prod
    (fun next q =>
      next.set (q.1 * g.cols + q.2)
        (lifeRule (next.getD (q.1 * g.cols + q.2) false) (neighborCount g q.1 q.2)))
    (List.range g.rows) (List.range g.cols) g.data

theorem resize_data (g : Grid) (rows cols : Nat) :
    (g.resize rows cols).data
      = List.foldl
          (fun data q =>
            data.set (q.1 * cols + q.2) (g.data.getD (q.1 * g.cols + q.2) false))
          (List.replicate (rows * cols) false)
          ((List.range (min g.rows rows)) ×ˢ (List.range (min g.cols cols))) :=
  foldl_prod
    (fun data q =>
      data.set (q.1 * cols + q.2) (g.data.getD (q.1 * g.cols + q.2) false))
    (List.range (min g.rows rows)) (List.range (min g.cols cols))
    (List.replicate (rows * cols) false)

theorem place_pattern_data (g : Grid) (pattern : Pattern) (start_row start_col : Nat) :
    (State.place_pattern g pattern start_row start_col).data
      = List.foldl
          (fun data o =>
            data.set ((start_row + o.1) * g.cols + (start_col + o.2)) true)
          g.data
          (pattern.cells.filter fun o =>
            decide (start_row + o.1 < g.rows ∧ start_col + o.2 < g.cols)) :=
  foldl_filter_if
    (fun o : Nat × Nat => start_row + o.1 < g.rows ∧ start_col + o.2 < g.cols)
    (fun data o =>
      data.set ((start_row + o.1) * g.cols + (start_col + o.2)) true)
    pattern.cells g.data

/-- The source's transition `match` realizes exactly the B3/S23 rule:
the next cell is alive iff it was alive with 2 or 3 live neighbors, or
dead with exactly 3 live neighbors. -/
theorem lifeRule_eq_true (a : Bool) (n : Nat) :
    lifeRule a n = true ↔ (a = true ∧ (n = 2 ∨ n = 3)) ∨ (a = false ∧ n = 3) := by
  unfold lifeRule
  split <;> simp_all

/-- Each pattern's offset list has no duplicate offsets. -/
theorem Pattern.cells_nodup (p : Pattern) : p.cells.Nodup := by
  cases p <;> decide

/-- C1: for every well-formed grid with at least one row and one column,
`State::update` is a pure function producing a grid of identical dimensions
in which the cell at `(r, c)` is alive exactly when, counting the live
neighbors of the PRE-STEP grid at the 8 toroidally wrapped positions, the
cell was alive with 2 or 3 live neighbors or dead with exactly 3 — i.e. the
double-buffered loop realizes a simultaneous update: the value written at
`(r, c)` is a function of the pre-step grid only, even though the loop
mutates `next` in place. -/
theorem C1_step_rule (g : Grid) (hwf : g.data.length = g.rows * g.cols)
    (hr0 : 0 < g.rows) (hc0 : 0 < g.cols) (r c : Nat) (hr : r < g.rows) (hc : c < g.cols) :
    (State.update g).cols = g.cols
  ∧ (State.update g).rows = g.rows
  ∧ (State.update g).data.length = g.data.length
  ∧ (State.update g).get r c = lifeRule (g.get r c) (neighborCount g r c)
  ∧ ((State.update g).get r c = true ↔
      (g.get r c = true ∧ (neighborCount g r c = 2 ∨ neighborCount g r c = 3))
      ∨ (g.get r c = false ∧ neighborCount g r c = 3)) := by
  have hlen : (State.update g).data.length = g.data.length := by
    rw [update_data]
    exact setFold_length (fun q : Nat × Nat => q.1 * g.cols + q.2)
      (fun q b => lifeRule b (neighborCount g q.1 q.2))
      ((List.range g.rows) ×ˢ (List.range g.cols)) g.data
  have hcols : (State.update g).cols = g.cols := rfl
  have hrows : (State.update g).rows = g.rows := by
    show (State.update g).data.length / (State.update g).cols = g.data.length / g.cols
    rw [hlen, hcols]
  have hget : (State.update g).get r c = lifeRule (g.get r c) (neighborCount g r c) := by
    show (State.update g).data.getD (r * g.cols + c) false = _
    rw [update_data]
    exact setFold_write (fun q : Nat × Nat => q.1 * g.cols + q.2)
      (fun q b => lifeRule b (neighborCount g q.1 q.2))
      ((List.range g.rows) ×ˢ (List.range g.cols)) g.data
      (rowMajor_nodup_flat g.rows g.cols g.cols le_rfl)
      (fun p hp => by
        have h1 := List.mem_range.mp (List.pair_mem_product.mp hp).1
        have h2 := List.mem_range.mp (List.pair_mem_product.mp hp).2
        rw [hwf]
        exact flatIndex_lt g.rows g.cols p.1 p.2 h1 h2)
      (r, c) (List.pair_mem_product.mpr ⟨List.mem_range.mpr hr, List.mem_range.mpr hc⟩)
  refine ⟨hcols, hrows, hlen, hget, ?_⟩
  rw [hget]
  exact lifeRule_eq_true (g.get r c) (neighborCount g r c)

/-- Witness for C1: the step rule evaluated on a concrete 3×3 grid holding
a horizontal blinker, at cell (0, 1). -/
theorem C1_step_rule_witness :
    (State.update ⟨[false, false, false, true, true, true, false, false, false], 3⟩).get 0 1
      = lifeRule
          (Grid.get ⟨[false, false, false, true, true, true, false, false, false], 3⟩ 0 1)
          (neighborCount ⟨[false, false, false, true, true, true, false, false, false], 3⟩ 0 1) :=
  (C1_step_rule ⟨[false, false, false, true, true, true, false, false, false], 3⟩
    (by decide) (by decide) (by decide) 0 1 (by decide) (by decide)).2.2.2.1

/-- C2: on a grid with zero rows but positive columns the step is indeed a
no-op on an equally empty grid, but on a grid with zero columns (reachable
through `Grid::new` on a width-0 terminal or `Grid::resize` to zero
columns) `State::update` PANICS: its first action calls `Grid::rows`,
which evaluates `self.data.len() / self.cols = 0 / 0`, an unguarded
division by zero.  The claim's "no panic / no division by zero" part is
therefore violated by the code. -/
theorem C2_zero_dims :
    State.updateChecked ⟨[], 5⟩ = some ⟨[], 5⟩
  ∧ State.updateChecked ⟨[], 0⟩ = none
  ∧ Grid.rowsChecked ⟨[], 0⟩ = none := by
  refine ⟨rfl, rfl, rfl⟩

/-- C5: Blinker oscillation on a concrete sufficiently large (5×5) all-dead
grid.  Stamping the Blinker at anchor (1, 1) yields the horizontal
three-cell line at row 2, columns 1..3; one step turns it into the vertical
three-cell line at rows 1..3, column 2 (rotated 90° about the same center
(2, 2)); a second step returns exactly the stamped configuration. -/
theorem C5_blinker_period :
    State.update (State.update (State.place_pattern (Grid.new 5 5) Pattern.Blinker 1 1))
      = State.place_pattern (Grid.new 5 5) Pattern.Blinker 1 1
  ∧ State.update (State.place_pattern (Grid.new 5 5) Pattern.Blinker 1 1)
      = ((((Grid.new 5 5).set 1 2 true).set 2 2 true).set 3 2 true) := by
  refine ⟨by decide, by decide⟩

/-- Unfolding equation for `Grid.rows`, applied by rewriting so that large
concrete grids never need kernel evaluation of their backing list. -/
theorem Grid.rows_eq (g : Grid) : g.rows = g.data.length / g.cols := rfl

/-- C7: `Grid::new` computes `height * width` in `u16` before widening, so
for the 300×300 terminal size the allocation is `90000 % 65536 = 24464`
cells instead of `90000` (in a debug build it panics on overflow instead),
and the resulting grid violates the spec invariant
`length == rows * columns`: `rows * cols = 81 * 300 = 24300 ≠ 24464`. -/
theorem C7_grid_new_overflow :
    (Grid.new 300 300).data.length = 24464
  ∧ (Grid.new 300 300).data.length ≠ 300 * 300
  ∧ (Grid.new 300 300).data.length ≠ (Grid.new 300 300).rows * (Grid.new 300 300).cols := by
  have hl : (Grid.new 300 300).data.length = 24464 := by
    show (List.replicate ((300 * 300) % 65536) false).length = 24464
    rw [List.length_replicate]
  have hc : (Grid.new 300 300).cols = 300 := rfl
  refine ⟨hl, by rw [hl]; decide, ?_⟩
  rw [Grid.rows_eq, hl, hc]
  decide

/-- C10: the `TickRate` cycling tables and their algebra: `increase` maps
Slow→Normal→Fast→Slow, `decrease` maps Slow→Fast, Normal→Slow,
Fast→Normal, three increases are the identity (in particular from Normal
back to Normal), increase and decrease are mutually inverse (cycling wraps
both directions), and the step durations are exactly 1.0 s, 0.2 s and
0.1 s for Slow, Normal, Fast. -/
theorem C10_tickrate_cycle :
    (TickRate.increase TickRate.Slow = TickRate.Normal
      ∧ TickRate.increase TickRate.Normal = TickRate.Fast
      ∧ TickRate.increase TickRate.Fast = TickRate.Slow)
  ∧ (TickRate.decrease TickRate.Slow = TickRate.Fast
      ∧ TickRate.decrease TickRate.Normal = TickRate.Slow
      ∧ TickRate.decrease TickRate.Fast = TickRate.Normal)
  ∧ (∀ t : TickRate, TickRate.increase (TickRate.increase (TickRate.increase t)) = t)
  ∧ (∀ t : TickRate, TickRate.decrease (TickRate.increase t) = t
      ∧ TickRate.increase (TickRate.decrease t) = t)
  ∧ (TickRate.durationNanos TickRate.Slow = 1000000000
      ∧ TickRate.durationNanos TickRate.Normal = 200000000
      ∧ TickRate.durationNanos TickRate.Fast = 100000000) := by
  refine ⟨⟨rfl, rfl, rfl⟩, ⟨rfl, rfl, rfl⟩, ?_, ?_, ⟨rfl, rfl, rfl⟩⟩
  · intro t; cases t <;> rfl
  · intro t; cases t <;> exact ⟨rfl, rfl⟩

/-- C9: on a grid with `R ≥ 1` rows and `C ≥ 1` columns, each arrow-key
event changes exactly one cursor coordinate by ±1 modulo the matching grid
dimension: left from column 0 wraps to `C - 1` (otherwise decrements),
right from column `C - 1` wraps to 0 (otherwise increments), and rows
behave symmetrically for up and down; the other coordinate is unchanged. -/
theorem C9_cursor_wrap (R C row col : Nat) (hR : 0 < R) (hC : 0 < C)
    (hrow : row < R) (hcol : col < C) :
    ((State.moveCursor ⟨row, col⟩ R C ArrowKey.left).row = row
      ∧ (State.moveCursor ⟨row, col⟩ R C ArrowKey.left).col
          = if col = 0 then C - 1 else col - 1)
  ∧ ((State.moveCursor ⟨row, col⟩ R C ArrowKey.right).row = row
      ∧ (State.moveCursor ⟨row, col⟩ R C ArrowKey.right).col
          = if col = C - 1 then 0 else col + 1)
  ∧ ((State.moveCursor ⟨row, col⟩ R C ArrowKey.up).col = col
      ∧ (State.moveCursor ⟨row, col⟩ R C ArrowKey.up).row
          = if row = 0 then R - 1 else row - 1)
  ∧ ((State.moveCursor ⟨row, col⟩ R C ArrowKey.down).col = col
      ∧ (State.moveCursor ⟨row, col⟩ R C ArrowKey.down).row
          = if row = R - 1 then 0 else row + 1) := by
  have dec1 : ∀ x n : Nat, 0 < n → x < n →
      (x + n - 1) % n = if x = 0 then n - 1 else x - 1 := by
    intro x n hn hx
    by_cases h : x = 0
    · subst h
      rw [if_pos rfl]
      have e : 0 + n - 1 = n - 1 := by omega
      rw [e, Nat.mod_eq_of_lt (by omega)]
    · rw [if_neg h]
      have e : x + n - 1 = (x - 1) + n := by omega
      rw [e, Nat.add_mod_right, Nat.mod_eq_of_lt (by omega)]
  have inc1 : ∀ x n : Nat, 0 < n → x < n →
      (x + 1) % n = if x = n - 1 then 0 else x + 1 := by
    intro x n hn hx
    by_cases h : x = n - 1
    · rw [if_pos h]
      have e : x + 1 = n := by omega
      rw [e, Nat.mod_self]
    · rw [if_neg h, Nat.mod_eq_of_lt (by omega)]
  exact ⟨⟨rfl, dec1 col C hC hcol⟩, ⟨rfl, inc1 col C hC hcol⟩,
    ⟨rfl, dec1 row R hR hrow⟩, ⟨rfl, inc1 row R hR hrow⟩⟩

/-- Witness for C9: a 4×7 grid with the cursor at (0, 6): left wraps the
column to 5, right wraps it to 0, up wraps the row to 3, down moves it
to 1. -/
theorem C9_cursor_wrap_witness :
    ((State.moveCursor ⟨0, 6⟩ 4 7 ArrowKey.left).row = 0
      ∧ (State.moveCursor ⟨0, 6⟩ 4 7 ArrowKey.left).col = if (6 : Nat) = 0 then 7 - 1 else 6 - 1)
  ∧ ((State.moveCursor ⟨0, 6⟩ 4 7 ArrowKey.right).row = 0
      ∧ (State.moveCursor ⟨0, 6⟩ 4 7 ArrowKey.right).col
          = if (6 : Nat) = 7 - 1 then 0 else 6 + 1)
  ∧ ((State.moveCursor ⟨0, 6⟩ 4 7 ArrowKey.up).col = 6
      ∧ (State.moveCursor ⟨0, 6⟩ 4 7 ArrowKey.up).row = if (0 : Nat) = 0 then 4 - 1 else 0 - 1)
  ∧ ((State.moveCursor ⟨0, 6⟩ 4 7 ArrowKey.down).col = 6
      ∧ (State.moveCursor ⟨0, 6⟩ 4 7 ArrowKey.down).row
          = if (0 : Nat) = 4 - 1 then 0 else 0 + 1) :=
  C9_cursor_wrap 4 7 0 6 (by decide) (by decide) (by decide) (by decide)

/-- C6: while paused, any sequence of scheduler frames, each with an
arbitrary (possibly nonzero) elapsed `delta`, leaves both the time
accumulator and the grid exactly unchanged; and the first unpaused frame
afterwards runs the tick loop starting from the original accumulator value
plus its own delta — the accumulator was preserved, not reset. -/
theorem C6_pause_invariant (tick acc : Nat) (g : Grid) (deltas : List Nat) (delta : Nat) :
    List.foldl (fun s d => State.runFrame true tick s.1 d s.2) (acc, g) deltas = (acc, g)
  ∧ State.runFrame false tick
      (List.foldl (fun s d => State.runFrame true tick s.1 d s.2) (acc, g) deltas).1 delta
      (List.foldl (fun s d => State.runFrame true tick s.1 d s.2) (acc, g) deltas).2
      = runTicks tick (acc + delta) g := by
  have h1 : ∀ (L : List Nat) (s : Nat × Grid),
      List.foldl (fun s d => State.runFrame true tick s.1 d s.2) s L = s := by
    intro L
    induction L with
    | nil => intro s; rfl
    | cons d L ih => intro s; exact ih s
  refine ⟨h1 deltas (acc, g), ?_⟩
  rw [h1 deltas (acc, g)]
  rfl

/-- Counterexample to C3 as stated: on the zero-column grid (reachable via
`Grid::new` on a width-0 terminal or `Grid::resize` to zero columns),
stamping the Blinker PANICS, because the loop's bounds check calls
`Grid::rows`, whose `0 / 0` division panics — so stamping does not "never
panic" on every grid. -/
theorem C3_stamp_counterexample :
    State.place_patternChecked ⟨[], 0⟩ Pattern.Blinker 0 0 = none := rfl

/-- C3 (amended to grids with at least one column): stamping never writes
outside the grid's bounds and never panics; exactly the offset cells
`(start_row + dr, start_col + dc)` with `start_row + dr < rows` and
`start_col + dc < cols` are set alive, out-of-bounds offsets are silently
dropped without wraparound, and every other cell of the buffer — described
by its flat index `i` — is unchanged. -/
theorem C3_stamp_bounds (g : Grid) (p : Pattern) (sr sc : Nat) (hc : 0 < g.cols) :
    State.place_patternChecked g p sr sc = some (State.place_pattern g p sr sc)
  ∧ (State.place_pattern g p sr sc).cols = g.cols
  ∧ (State.place_pattern g p sr sc).data.length = g.data.length
  ∧ (∀ o ∈ p.cells, sr + o.1 < g.rows → sc + o.2 < g.cols →
      (State.place_pattern g p sr sc).get (sr + o.1) (sc + o.2) = true)
  ∧ (∀ i : Nat,
      (∀ o ∈ p.cells,
        ¬(sr + o.1 < g.rows ∧ sc + o.2 < g.cols
          ∧ (sr + o.1) * g.cols + (sc + o.2) = i)) →
      (State.place_pattern g p sr sc).data.getD i false = g.data.getD i false) := by
  have hchecked : State.place_patternChecked g p sr sc
      = some (State.place_pattern g p sr sc) := by
    unfold State.place_patternChecked Grid.rowsChecked
    rw [if_neg (by omega : ¬g.cols = 0)]
    by_cases h : p.cells.isEmpty
    · rw [if_pos h]
    · rw [if_neg h]
      rfl
  have hL : ∀ o : Nat × Nat,
      o ∈ (p.cells.filter fun o => decide (sr + o.1 < g.rows ∧ sc + o.2 < g.cols)) →
      sr + o.1 < g.rows ∧ sc + o.2 < g.cols := by
    intro o ho
    have := (List.mem_filter.mp ho).2
    exact of_decide_eq_true this
  have hnd :
      ((p.cells.filter fun o => decide (sr + o.1 < g.rows ∧ sc + o.2 < g.cols)).map
        fun o : Nat × Nat => (sr + o.1) * g.cols + (sc + o.2)).Nodup := by
    apply List.Nodup.map_on _ (List.Nodup.filter _ (Pattern.cells_nodup p))
    intro x hx y hy hxy
    have hxb := hL x hx
    have hyb := hL y hy
    have h := flatIndex_inj g.cols (sr + x.1) (sc + x.2) (sr + y.1) (sc + y.2)
      hxb.2 hyb.2 hxy
    have hx1 : x.1 = y.1 := by omega
    have hx2 : x.2 = y.2 := by omega
    exact Prod.ext hx1 hx2
  have hb : ∀ o ∈ (p.cells.filter fun o => decide (sr + o.1 < g.rows ∧ sc + o.2 < g.cols)),
      (sr + o.1) * g.cols + (sc + o.2) < g.data.length := by
    intro o ho
    have h := hL o ho
    exact flatIndex_lt_length g.data.length g.cols (sr + o.1) (sc + o.2) h.2 h.1
  have hlen : (State.place_pattern g p sr sc).data.length = g.data.length := by
    rw [place_pattern_data]
    exact setFold_length (fun o : Nat × Nat => (sr + o.1) * g.cols + (sc + o.2))
      (fun _ _ => true) _ g.data
  refine ⟨hchecked, rfl, hlen, ?_, ?_⟩
  · intro o ho h1 h2
    show (State.place_pattern g p sr sc).data.getD ((sr + o.1) * g.cols + (sc + o.2)) false
        = true
    rw [place_pattern_data]
    exact setFold_write (fun o : Nat × Nat => (sr + o.1) * g.cols + (sc + o.2))
      (fun _ _ => true) _ g.data hnd hb o
      (List.mem_filter.mpr ⟨ho, decide_eq_true ⟨h1, h2⟩⟩)
  · intro i hi
    rw [place_pattern_data]
    apply setFold_untouched (fun o : Nat × Nat => (sr + o.1) * g.cols + (sc + o.2))
      (fun _ _ => true) _ g.data i
    intro hmem
    obtain ⟨o, ho, hflat⟩ := List.mem_map.mp hmem
    have hob := hL o ho
    exact hi o (List.mem_filter.mp ho).1 ⟨hob.1, hob.2, hflat⟩

/-- Witness for C3: stamping the Blinker at anchor (3, 3) on an all-dead
4×4 grid — every offset lands out of bounds, so every cell is unchanged
and no panic occurs. -/
theorem C3_stamp_bounds_witness :
    State.place_patternChecked ⟨List.replicate 16 false, 4⟩ Pattern.Blinker 3 3
      = some (State.place_pattern ⟨List.replicate 16 false, 4⟩ Pattern.Blinker 3 3)
  ∧ (State.place_pattern ⟨List.replicate 16 false, 4⟩ Pattern.Blinker 3 3).cols = 4
  ∧ (State.place_pattern ⟨List.replicate 16 false, 4⟩ Pattern.Blinker 3 3).data.length
      = (List.replicate 16 false).length
  ∧ (∀ o ∈ (Pattern.Blinker).cells,
      3 + o.1 < Grid.rows ⟨List.replicate 16 false, 4⟩ → 3 + o.2 < 4 →
      (State.place_pattern ⟨List.replicate 16 false, 4⟩ Pattern.Blinker 3 3).get
        (3 + o.1) (3 + o.2) = true)
  ∧ (∀ i : Nat,
      (∀ o ∈ (Pattern.Blinker).cells,
        ¬(3 + o.1 < Grid.rows ⟨List.replicate 16 false, 4⟩ ∧ 3 + o.2 < 4
          ∧ (3 + o.1) * 4 + (3 + o.2) = i)) →
      (State.place_pattern ⟨List.replicate 16 false, 4⟩ Pattern.Blinker 3 3).data.getD i false
        = (List.replicate 16 false).getD i false) :=
  C3_stamp_bounds ⟨List.replicate 16 false, 4⟩ Pattern.Blinker 3 3 (by decide)

/-- Counterexample to C4 as stated: resizing the zero-column grid
(itself producible by an earlier resize to zero columns) PANICS instead of
producing a 2×2 grid: the copy loop's bound calls `Grid::rows`, whose
`0 / 0` division panics, so resize is not defined on every source grid. -/
theorem C4_resize_counterexample : Grid.resizeChecked ⟨[], 0⟩ 2 2 = none := rfl

/-- C4 (amended to source grids with at least one column): resize to
R'×C' produces a buffer with column count C' and length `R' * C'`
(hence exactly R' rows whenever `C' ≥ 1`), no panic; every cell in the
overlapping top-left rectangle keeps its old value, and every other cell
of the new grid is dead. -/
theorem C4_resize_overlap (g : Grid) (R' C' : Nat) (hc : 0 < g.cols) :
    Grid.resizeChecked g R' C' = some (g.resize R' C')
  ∧ (g.resize R' C').cols = C'
  ∧ (g.resize R' C').data.length = R' * C'
  ∧ (0 < C' → (g.resize R' C').rows = R')
  ∧ (∀ r c : Nat, r < min g.rows R' → c < min g.cols C' →
      (g.resize R' C').get r c = g.get r c)
  ∧ (∀ r c : Nat, r < R' → c < C' → ¬(r < min g.rows R' ∧ c < min g.cols C') →
      (g.resize R' C').get r c = false) := by
  have hchecked : Grid.resizeChecked g R' C' = some (g.resize R' C') := by
    unfold Grid.resizeChecked Grid.rowsChecked
    rw [if_neg (by omega : ¬g.cols = 0)]
    rfl
  have hlen : (g.resize R' C').data.length = R' * C' := by
    rw [resize_data,
      setFold_length (fun q : Nat × Nat => q.1 * C' + q.2)
        (fun q b => g.data.getD (q.1 * g.cols + q.2) false) _
        (List.replicate (R' * C') false),
      List.length_replicate]
  have hnd :
      (((List.range (min g.rows R')) ×ˢ (List.range (min g.cols C'))).map
        fun q : Nat × Nat => q.1 * C' + q.2).Nodup :=
    rowMajor_nodup_flat (min g.rows R') (min g.cols C') C' (by omega)
  have hb : ∀ q ∈ (List.range (min g.rows R')) ×ˢ (List.range (min g.cols C')),
      q.1 * C' + q.2 < (List.replicate (R' * C') false).length := by
    intro q hq
    have h1 := List.mem_range.mp (List.pair_mem_product.mp hq).1
    have h2 := List.mem_range.mp (List.pair_mem_product.mp hq).2
    rw [List.length_replicate]
    exact flatIndex_lt R' C' q.1 q.2 (by omega) (by omega)
  refine ⟨hchecked, rfl, hlen, ?_, ?_, ?_⟩
  · intro hC'
    rw [Grid.rows_eq]
    show (g.resize R' C').data.length / C' = R'
    rw [hlen]
    exact Nat.mul_div_cancel R' hC'
  · intro r c h1 h2
    show (g.resize R' C').data.getD (r * C' + c) false = g.data.getD (r * g.cols + c) false
    rw [resize_data]
    have h := setFold_write (fun q : Nat × Nat => q.1 * C' + q.2)
      (fun q b => g.data.getD (q.1 * g.cols + q.2) false)
      ((List.range (min g.rows R')) ×ˢ (List.range (min g.cols C')))
      (List.replicate (R' * C') false) hnd hb (r, c)
      (List.pair_mem_product.mpr ⟨List.mem_range.mpr h1, List.mem_range.mpr h2⟩)
    exact h
  · intro r c h1 h2 hout
    show (g.resize R' C').data.getD (r * C' + c) false = false
    rw [resize_data]
    rw [setFold_untouched (fun q : Nat × Nat => q.1 * C' + q.2)
      (fun q b => g.data.getD (q.1 * g.cols + q.2) false) _
      (List.replicate (R' * C') false) (r * C' + c) ?_]
    · exact getD_replicate_false _ _
    · intro hmem
      obtain ⟨q, hq, hflat⟩ := List.mem_map.mp hmem
      have hq1 := List.mem_range.mp (List.pair_mem_product.mp hq).1
      have hq2 := List.mem_range.mp (List.pair_mem_product.mp hq).2
      have h := flatIndex_inj C' q.1 q.2 r c (by omega) h2 hflat
      exact hout ⟨by omega, by omega⟩

/-- Witness for C4: a populated 3×3 grid resized to 2×2 — the intersection
keeps its values, dimensions are exact, and no panic occurs. -/
theorem C4_resize_overlap_witness :
    Grid.resizeChecked ⟨[true, false, true, false, true, false, true, true, false], 3⟩ 2 2
      = some (Grid.resize ⟨[true, false, true, false, true, false, true, true, false], 3⟩ 2 2)
  ∧ (Grid.resize ⟨[true, false, true, false, true, false, true, true, false], 3⟩ 2 2).cols = 2
  ∧ (Grid.resize ⟨[true, false, true, false, true, false, true, true, false], 3⟩ 2 2).data.length
      = 2 * 2
  ∧ ((0 : Nat) < 2 →
      (Grid.resize ⟨[true, false, true, false, true, false, true, true, false], 3⟩ 2 2).rows = 2)
  ∧ (∀ r c : Nat,
      r < min (Grid.rows ⟨[true, false, true, false, true, false, true, true, false], 3⟩) 2 →
      c < min 3 2 →
      (Grid.resize ⟨[true, false, true, false, true, false, true, true, false], 3⟩ 2 2).get r c
        = Grid.get ⟨[true, false, true, false, true, false, true, true, false], 3⟩ r c)
  ∧ (∀ r c : Nat, r < 2 → c < 2 →
      ¬(r < min (Grid.rows ⟨[true, false, true, false, true, false, true, true, false], 3⟩) 2
        ∧ c < min 3 2) →
      (Grid.resize ⟨[true, false, true, false, true, false, true, true, false], 3⟩ 2 2).get r c
        = false) :=
  C4_resize_overlap ⟨[true, false, true, false, true, false, true, true, false], 3⟩ 2 2
    (by decide)

/-- Counterexample to C8 as stated: on a 10×10 grid in random mode, a spawn
attempt (gate draw hits 0) PANICS rather than stamping anywhere: the code
samples `gen_range(0..rows.saturating_sub(15))`, and for `rows = 10` the
range `0..0` is empty, which panics in `rand` — so the procedure is not
total for every grid dimensions. -/
theorem C8_spawn_counterexample :
    State.spawn_random_pattern ⟨List.replicate 100 false, 10⟩ 0 0 0 0 = none := rfl

/-- C8 (amended): after a step in random mode, the spawn attempt proceeds
iff the 10-way gate draw is 0 (probability exactly 1-in-10 for a uniform
draw); when it proceeds, the pattern is the 6-way-draw choice among the six
canonical patterns and the anchor is the sampled pair, uniform over
`[0, rows - 15) × [0, cols - 15)` — NOT over the whole grid — and the
procedure is total only for grids with more than 15 rows and 15 columns. -/
theorem C8_spawn_spec (g : Grid) (d1 d2 d3 d4 : Nat)
    (hr : 15 < g.rows) (hc : 15 < g.cols) :
    (d1 % 10 ≠ 0 → State.spawn_random_pattern g d1 d2 d3 d4 = some g)
  ∧ (d1 % 10 = 0 →
      State.spawn_random_pattern g d1 d2 d3 d4
        = some (State.place_pattern g (patternFromDraw (d2 % 6))
            (d3 % (g.rows - 15)) (d4 % (g.cols - 15)))
      ∧ d3 % (g.rows - 15) < g.rows - 15
      ∧ d4 % (g.cols - 15) < g.cols - 15) := by
  have hc0 : ¬g.cols = 0 := by
    intro h0
    rw [Grid.rows_eq, h0] at hr
    simp at hr
  have e1 : genRange d1 10 = some (d1 % 10) := by
    unfold genRange
    rw [if_neg (by omega : ¬(10 = 0))]
  have e2 : genRange d2 6 = some (d2 % 6) := by
    unfold genRange
    rw [if_neg (by omega : ¬(6 = 0))]
  have e3 : g.rowsChecked = some g.rows := by
    unfold Grid.rowsChecked
    rw [if_neg hc0]
    rfl
  have e4 : genRange d3 (g.rows - 15) = some (d3 % (g.rows - 15)) := by
    unfold genRange
    rw [if_neg (by omega : ¬(g.rows - 15 = 0))]
  have e5 : genRange d4 (g.cols - 15) = some (d4 % (g.cols - 15)) := by
    unfold genRange
    rw [if_neg (by omega : ¬(g.cols - 15 = 0))]
  constructor
  · intro h
    simp only [State.spawn_random_pattern, e1, e2, e3, e4, e5]
    rw [if_pos h]
  · intro h
    refine ⟨?_, Nat.mod_lt _ (by omega), Nat.mod_lt _ (by omega)⟩
    simp only [State.spawn_random_pattern, e1, e2, e3, e4, e5, h]
    rfl

/-- Witness for C8: a 20×20 all-dead grid; the gate draw 10 hits the
1-in-10 branch (10 % 10 = 0), the pattern draw 1 selects the Blinker, and
the anchor draws 21 and 7 reduce to (1, 2) inside [0, 5) × [0, 5). -/
theorem C8_spawn_spec_witness :
    (15 < Grid.rows ⟨List.replicate 400 false, 20⟩)
  ∧ ((10 % 10 ≠ 0 →
        State.spawn_random_pattern ⟨List.replicate 400 false, 20⟩ 10 1 21 7
          = some ⟨List.replicate 400 false, 20⟩)
      ∧ (10 % 10 = 0 →
          State.spawn_random_pattern ⟨List.replicate 400 false, 20⟩ 10 1 21 7
            = some (State.place_pattern ⟨List.replicate 400 false, 20⟩
                (patternFromDraw (1 % 6))
                (21 % (Grid.rows ⟨List.replicate 400 false, 20⟩ - 15))
                (7 % ((20 : Nat) - 15)))
          ∧ 21 % (Grid.rows ⟨List.replicate 400 false, 20⟩ - 15)
              < Grid.rows ⟨List.replicate 400 false, 20⟩ - 15
          ∧ 7 % ((20 : Nat) - 15) < (20 : Nat) - 15)) :=
  ⟨by rw [Grid.rows_eq, List.length_replicate]; decide,
   C8_spawn_spec ⟨List.replicate 400 false, 20⟩ 10 1 21 7
     (by rw [Grid.rows_eq, List.length_replicate]; decide) (by decide)⟩
